import Mathlib

/-!
Verification development for the obsidian-inlineAI plugin.

Shallow embedding of the plugin's state stores, diff rendering engine and
accept/commit engine, translated from:
  - src/modules/SelectionState.ts  (currentSelectionState)
  - src/modules/AIExtension.ts     (generatedResponseState, setGeneratedResponseEffect)
  - src/modules/diffExtension.ts   (generateDiffView, dispatchAIChanges, diffDecorationState)
  - api.ts                         (ChatApiManager.callApi, handleEditorUpdate)

Editor-state reads (`state.field(...)`) become explicit parameters; a
CodeMirror transaction becomes its list of effects together with the prior
field values; a DecorationSet becomes a list of positioned decorations
built in the order the RangeSetBuilder receives them.
-/

namespace InlineAI

/-- SelectionInfo from modules/SelectionState.ts: the captured selection
range and its frozen text. `from`/`to` are rendered as `fromPos`/`toPos`
because `from` is a Lean keyword. -/
structure SelectionInfo where
  fromPos : Nat
  toPos : Nat
  text : String
  deriving DecidableEq, Repr

/-- AIResponse from modules/AIExtension.ts: the model output and the prompt
that produced it. -/
structure AIResponse where
  airesponse : String
  prompt : String
  deriving DecidableEq, Repr

/-- The diff operations of the diff-match-patch library
(DIFF_INSERT / DIFF_DELETE / DIFF_EQUAL). -/
inductive DiffOp where
  | insert
  | delete
  | equal
  deriving DecidableEq, Repr

/-- One element of the diff list produced by diff-match-patch:
an `[op, text]` pair. -/
structure DiffSeg where
  op : DiffOp
  text : String
  deriving DecidableEq, Repr

/-- The two widget flavours built by generateDiffView
(ChangeContentWidget's "added" / "removed" type). -/
inductive DecoKind where
  | added
  | removed
  deriving DecidableEq, Repr

/-- One positioned decoration added to the RangeSetBuilder by
generateDiffView: its kind ("added" widgets are emitted with
`side: 1`, "removed" widgets with `side: -1`), the widget's text content,
and the range `[fromPos, toPos]` it was added over. -/
structure Deco where
  kind : DecoKind
  content : String
  fromPos : Nat
  toPos : Nat
  deriving DecidableEq, Repr

/-- The state effects dispatched by the plugin:
`setSelectionInfoEffect` (SelectionState.ts), `setGeneratedResponseEffect`
(AIExtension.ts), and the `dismissTooltipEffect` / `acceptTooltipEffect` /
`commandEffect` of WidgetExtension.ts. -/
inductive Eff where
  | setSelectionInfo (value : Option SelectionInfo)
  | setGeneratedResponse (value : Option AIResponse)
  | dismissTooltip
  | acceptTooltip
  | command
  deriving DecidableEq, Repr

/-- Predicate for the source's `e.is(setSelectionInfoEffect)` test. -/
def isSetSelectionInfo : Eff → Bool
  | Eff.setSelectionInfo _ => true
  | _ => false

/-- Predicate for the source's `e.is(setGeneratedResponseEffect)` test. -/
def isSetGeneratedResponse : Eff → Bool
  | Eff.setGeneratedResponse _ => true
  | _ => false

/-- Predicate for the source's `e.is(dismissTooltipEffect)` test. -/
def isDismissTooltip : Eff → Bool
  | Eff.dismissTooltip => true
  | _ => false

/-- Update function of `currentSelectionState` (modules/SelectionState.ts):
`tr.effects.find(e => e.is(setSelectionInfoEffect))` returns the first
matching effect; if one is present its payload (possibly null) replaces the
value, otherwise a dismissTooltipEffect clears the field, otherwise the
value is retained. -/
def currentSelectionUpdate (value : Option SelectionInfo) (effects : List Eff) :
    Option SelectionInfo :=
  match effects.find? isSetSelectionInfo with
  | some (Eff.setSelectionInfo v) => v
  | _ =>
    if effects.any isDismissTooltip then none else value

/-- Update function of `generatedResponseState` (modules/AIExtension.ts):
if some effect is a setGeneratedResponseEffect, the first such effect's
payload replaces the value (the source's `effect ? effect.value : value`
guard can only take the `value` branch vacuously); otherwise a
dismissTooltipEffect clears the field; otherwise the value is retained. -/
def generatedResponseUpdate (value : Option AIResponse) (effects : List Eff) :
    Option AIResponse :=
  if effects.any isSetGeneratedResponse then
    match effects.find? isSetGeneratedResponse with
    | some (Eff.setGeneratedResponse v) => v
    | _ => value
  else if effects.any isDismissTooltip then none
  else value

/-- Length of the longest common prefix of two character lists
(diff-match-patch's diff_commonPrefix, counted in characters). -/
def commonPrefixLen : List Char → List Char → Nat
  | a :: as, b :: bs => if a = b then commonPrefixLen as bs + 1 else 0
  | _, _ => 0

/-- Length of the longest common suffix of two character lists
(diff-match-patch's diff_commonSuffix). -/
def commonSuffixLen (a b : List Char) : Nat :=
  commonPrefixLen a.reverse b.reverse

/-- Modelled from the spec: the external diff collaborator
(the diff-match-patch npm package, whose implementation is not part of this
repository) is, per the spec, a black-box structural diff subject only to
the reconstruction laws (equal+delete segments concatenate to the "before"
text, equal+insert segments to the "after" text). The empty-side cases
follow the library's diff_compute_ entry checks (`if (!text1) return
[[DIFF_INSERT, text2]]`, symmetrically for text2); the residual general
case (both sides non-empty and sharing no prefix/suffix) is modelled as the
library's coarsest valid answer, one deletion followed by one insertion. -/
def diff_compute (text1 text2 : List Char) : List DiffSeg :=
  if text1.isEmpty then [⟨DiffOp.insert, String.mk text2⟩]
  else if text2.isEmpty then [⟨DiffOp.delete, String.mk text1⟩]
  else [⟨DiffOp.delete, String.mk text1⟩, ⟨DiffOp.insert, String.mk text2⟩]

/-- Modelled from the spec: the cleanup/merge pass of the external diff
collaborator (diff-match-patch's diff_cleanupMerge, not part of this
repository), modelled as its core guarantee — adjacent segments with the
same operation are merged and empty segments dropped — which preserves the
reconstruction laws the spec assigns to the collaborator. -/
def diff_cleanupMerge : List DiffSeg → List DiffSeg
  | [] => []
  | d :: rest =>
    match diff_cleanupMerge rest with
    | [] => if d.text = "" then [] else [d]
    | e :: es =>
      if d.text = "" then e :: es
      else if d.op = e.op then ⟨d.op, d.text ++ e.text⟩ :: es
      else d :: e :: es

/-- diff-match-patch's diff_main, the external diff collaborator called by
generateDiffView. The equality fast path (`if (text1 == text2) { if
(text1) return [[DIFF_EQUAL, text1]]; return []; }`), the common
prefix/suffix trimming and reattachment, and the final cleanup-merge
follow the library's source; the inner computation is `diff_compute`
above (partially Modelled from the spec, see there). -/
def diff_main (text1 text2 : String) : List DiffSeg :=
  if text1 = text2 then
    if text1 = "" then [] else [⟨DiffOp.equal, text1⟩]
  else
    let l1 := text1.toList
    let l2 := text2.toList
    let p := commonPrefixLen l1 l2
    let r1 := l1.drop p
    let r2 := l2.drop p
    let s := commonSuffixLen r1 r2
    let m1 := r1.take (r1.length - s)
    let m2 := r2.take (r2.length - s)
    let core := diff_compute m1 m2
    let withPre :=
      if p = 0 then core else ⟨DiffOp.equal, String.mk (l1.take p)⟩ :: core
    let full :=
      if s = 0 then withPre
      else withPre ++ [⟨DiffOp.equal, String.mk (r1.drop (r1.length - s))⟩]
    diff_cleanupMerge full

/-- Modelled from the spec: diff-match-patch's diff_cleanupSemantic (the
"semantic cleanup" pass the spec requires of the external diff
collaborator; its implementation is not part of this repository). It
rewrites the segment list — merging small, low-value edit fragments —
while preserving the reconstruction laws; modelled here as the
merge-adjacent/drop-empty normalisation, which is the identity on the
single-segment diffs the claims exercise. -/
def diff_cleanupSemantic (diffs : List DiffSeg) : List DiffSeg :=
  diff_cleanupMerge diffs

/-- The `diffs.forEach` loop of generateDiffView (diffExtension.ts):
walks the segments with a running `currentPos`; DIFF_INSERT adds a
zero-width "added" widget at `currentPos` and does not advance;
DIFF_DELETE adds a "removed" widget over `[currentPos, currentPos +
length]` and advances by `length`; DIFF_EQUAL only advances. -/
def buildDecos (currentPos : Nat) : List DiffSeg → List Deco
  | [] => []
  | d :: rest =>
    match d.op with
    | DiffOp.insert =>
      ⟨DecoKind.added, d.text, currentPos, currentPos⟩ :: buildDecos currentPos rest
    | DiffOp.delete =>
      ⟨DecoKind.removed, d.text, currentPos, currentPos + d.text.length⟩ ::
        buildDecos (currentPos + d.text.length) rest
    | DiffOp.equal => buildDecos (currentPos + d.text.length) rest

/-- generateDiffView (diffExtension.ts): the editor-state reads
`state.field(generatedResponseState)` and `state.field(currentSelectionState)`
become the two parameters; `response?.airesponse ?? ""` and
`context?.text ?? ""` coerce the absent cases to the empty string;
the diff is computed, semantically cleaned, and walked from
`context?.from ?? 0`. (The body of the source's try block; nothing in
this total embedding throws — the catch branch is treated separately by
`generateDiffViewE`.) -/
def generateDiffView (sel : Option SelectionInfo) (resp : Option AIResponse) :
    List Deco :=
  let aiText : String := (resp.map AIResponse.airesponse).getD ""
  let contextText : String := (sel.map SelectionInfo.text).getD ""
  let diffs := diff_cleanupSemantic (diff_main contextText aiText)
  let currentPos : Nat := (sel.map SelectionInfo.fromPos).getD 0
  buildDecos currentPos diffs

/-- generateDiffView with the try/catch made explicit: the fallible inner
diff computation is a parameter returning `Except`; the catch branch
(`catch (error) { console.error(...); return Decoration.none; }`) maps any
raised error to the empty decoration set. -/
def generateDiffViewE (dmp : String → String → Except String (List DiffSeg))
    (sel : Option SelectionInfo) (resp : Option AIResponse) : List Deco :=
  let aiText : String := (resp.map AIResponse.airesponse).getD ""
  let contextText : String := (sel.map SelectionInfo.text).getD ""
  match dmp contextText aiText with
  | Except.error _ => []
  | Except.ok diffs => buildDecos ((sel.map SelectionInfo.fromPos).getD 0) diffs

/-- Update function of `diffDecorationState` (diffExtension.ts): a
transaction carrying a setGeneratedResponseEffect regenerates the diff
view from `tr.state` (whose fields hold the post-transaction values
`newSel` / `newResp`); otherwise a dismissTooltipEffect clears the
decorations; otherwise they are retained. -/
def diffDecorationUpdate (decorations : List Deco) (effects : List Eff)
    (newSel : Option SelectionInfo) (newResp : Option AIResponse) : List Deco :=
  if effects.any isSetGeneratedResponse then generateDiffView newSel newResp
  else if effects.any isDismissTooltip then []
  else decorations

/-- The three transactional state fields the claims are about, bundled. -/
structure StoreState where
  sel : Option SelectionInfo
  resp : Option AIResponse
  diffDecos : List Deco
  deriving DecidableEq, Repr

/-- One editor transaction applied to the three fields: each field's update
function receives the transaction's effects; `diffDecorationState` reads
the other two fields' post-transaction values through `tr.state`. -/
def applyTransaction (st : StoreState) (effects : List Eff) : StoreState :=
  let sel := currentSelectionUpdate st.sel effects
  let resp := generatedResponseUpdate st.resp effects
  ⟨sel, resp, diffDecorationUpdate st.diffDecos effects sel resp⟩

/-- The single change object dispatched by a buffer mutation:
`{from, to, insert}`. -/
structure ChangeSpec where
  fromPos : Nat
  toPos : Nat
  insert : String
  deriving DecidableEq, Repr

/-- dispatchAIChanges (diffExtension.ts): reads the response and selection
fields (parameters here), coerces their absence with `?? ""` and `?? 0`,
and issues one `view.dispatch` carrying exactly one change object —
rendered as the returned one-element list of change descriptors. -/
def dispatchAIChanges (sel : Option SelectionInfo) (resp : Option AIResponse) :
    List ChangeSpec :=
  let aiText : String := (resp.map AIResponse.airesponse).getD ""
  let selectionFrom : Nat := (sel.map SelectionInfo.fromPos).getD 0
  let selectionTo : Nat := (sel.map SelectionInfo.toPos).getD 0
  [⟨selectionFrom, selectionTo, aiText⟩]

/-- Outcome of the external chat client call
`await this.chatClient.invoke(messages)` in ChatApiManager.callApi (api.ts):
it either resolves (the content, already normalised to a string by the
source's `typeof` check and `content.toString()`) or rejects with an
error whose message is carried. -/
inductive InvokeOutcome where
  | resolved (content : String)
  | rejected (errMessage : String)
  deriving DecidableEq, Repr

/-- Observable result of ChatApiManager.callApi: the string the promise
resolves with, and the user-visible Notice messages raised on the way. -/
structure ApiCallResult where
  returned : String
  notices : List String
  deriving DecidableEq, Repr

/-- ChatApiManager.callApi (api.ts): with no chat client it raises a Notice
and resolves with the "Chat client is not available" placeholder; on a
successful invoke it resolves with the content; when the invoke rejects it
raises a Notice naming the error and resolves with the
"Failed to generate a response" placeholder. It never rejects. -/
def callApi (clientAvailable : Bool) (outcome : InvokeOutcome) : ApiCallResult :=
  if !clientAvailable then
    ⟨"⚠️ Chat client is not available.",
      ["⚠️ Chat client is not initialized. Please check your settings."]⟩
  else
    match outcome with
    | InvokeOutcome.resolved content => ⟨content, []⟩
    | InvokeOutcome.rejected errMessage =>
      ⟨"⚠️ Failed to generate a response. Please try again later.",
        ["❌ Error calling the chat model: " ++ errMessage]⟩

/-- Observable result of ChatApiManager.handleEditorUpdate: the string it
resolves with, the effects it dispatches into the editor, and the Notices
raised (its own plus callApi's). -/
structure EditorUpdateResult where
  returned : String
  dispatchedEffects : List Eff
  notices : List String
  deriving DecidableEq, Repr

/-- ChatApiManager.handleEditorUpdate (api.ts): awaits callApi; the JS
falsiness test `if (!response)` holds only for the empty string; with no
active markdown view a Notice is raised and nothing is dispatched;
otherwise exactly one setGeneratedResponseEffect carrying
`{airesponse: response, prompt: userRequest}` is dispatched. The
surrounding try/catch is dead in this embedding because callApi never
rejects. -/
def handleEditorUpdate (clientAvailable : Bool) (outcome : InvokeOutcome)
    (hasMarkdownView : Bool) (userRequest : String) : EditorUpdateResult :=
  let api := callApi clientAvailable outcome
  if api.returned = "" then ⟨"⚠️ No response generated.", [], api.notices⟩
  else if !hasMarkdownView then
    ⟨"", [], api.notices ++ ["⚠️ No active Markdown editor found."]⟩
  else
    ⟨api.returned,
      [Eff.setGeneratedResponse (some ⟨api.returned, userRequest⟩)],
      api.notices⟩

/-- Advance contributed by one diff segment to the walk cursor: insert
segments do not advance, equal and delete segments advance by their
length. -/
def segAdvance (d : DiffSeg) : Nat :=
  match d.op with
  | DiffOp.insert => 0
  | _ => d.text.length

/-- Total cursor advance over a list of segments. -/
def advanceLen : List DiffSeg → Nat
  | [] => 0
  | d :: rest => segAdvance d + advanceLen rest

/-- Decoration contributed by the segment at index `i`, with its cursor
written in closed form: the selection's start offset plus the advance of
all earlier segments. Written from the spec's words (AnnotationSet, §3),
as the comparison definition for the source walk `buildDecos`. -/
def specWalkAt (startPos : Nat) (segs : List DiffSeg) (i : Nat) : Option Deco :=
  let d := segs.getD i ⟨DiffOp.equal, ""⟩
  let cursor := startPos + advanceLen (segs.take i)
  match d.op with
  | DiffOp.equal => none
  | DiffOp.insert => some ⟨DecoKind.added, d.text, cursor, cursor⟩
  | DiffOp.delete => some ⟨DecoKind.removed, d.text, cursor, cursor + d.text.length⟩

/-- Annotation set described by the spec: the decorations of all segments
in order, each positioned at the closed-form cursor of `specWalkAt`.
Written from the spec's words, for comparison with `buildDecos`. -/
def specSegmentWalk (startPos : Nat) (segs : List DiffSeg) : List Deco :=
  (List.range segs.length).filterMap (specWalkAt startPos segs)

/-- Characters of the "before" text represented by a segment list: the
concatenation of the equal and delete segment texts, in order (the
reconstruction law the spec assigns to the diff collaborator). -/
def beforeChars : List DiffSeg → List Char
  | [] => []
  | d :: rest =>
    (match d.op with
     | DiffOp.insert => []
     | _ => d.text.data) ++ beforeChars rest

/-- Characters of the "after" text represented by a segment list: the
concatenation of the equal and insert segment texts, in order. -/
def afterChars : List DiffSeg → List Char
  | [] => []
  | d :: rest =>
    (match d.op with
     | DiffOp.delete => []
     | _ => d.text.data) ++ afterChars rest

/-!
Supporting lemmas: evaluation of the modelled diff collaborator on the
empty-sided and equal inputs, equivalence of the source walk with the
closed-form walk, and the reconstruction (segment coverage) laws the spec
assigns to the diff collaborator.
-/

lemma commonPrefixLen_nil_left (l : List Char) : commonPrefixLen [] l = 0 := by
  cases l <;> rfl

lemma commonPrefixLen_nil_right (l : List Char) : commonPrefixLen l [] = 0 := by
  cases l <;> rfl

lemma string_mk_data (t : String) : String.mk t.data = t := rfl

lemma string_data_ne_nil {t : String} (h : t ≠ "") : t.data ≠ [] := by
  intro hl
  apply h
  cases t with
  | mk data =>
    subst hl
    rfl

lemma take_length_data (t : String) : List.take t.length t.data = t.data := by
  cases t with
  | mk data => simp

lemma diff_main_empty_left (t : String) (h : t ≠ "") :
    diff_main "" t = [⟨DiffOp.insert, t⟩] := by
  have hne : ¬ ("" = t) := fun hh => h hh.symm
  simp [diff_main, hne, commonPrefixLen_nil_left, commonSuffixLen, diff_compute,
    diff_cleanupMerge, h, take_length_data, string_mk_data]

lemma diff_main_empty_right (t : String) (h : t ≠ "") :
    diff_main t "" = [⟨DiffOp.delete, t⟩] := by
  have hd := string_data_ne_nil h
  have hlen : ¬ t.length = 0 := by
    cases t with
    | mk data => simpa [List.length_eq_zero] using hd
  simp [diff_main, h, commonPrefixLen_nil_right, commonSuffixLen, diff_compute,
    diff_cleanupMerge, hd, hlen, take_length_data, string_mk_data]


lemma specWalkAt_succ (p : Nat) (d : DiffSeg) (rest : List DiffSeg) (i : Nat) :
    specWalkAt p (d :: rest) (i + 1) = specWalkAt (p + segAdvance d) rest i := by
  simp [specWalkAt, advanceLen, Nat.add_assoc]

lemma specSegmentWalk_nil (p : Nat) : specSegmentWalk p [] = [] := by
  simp [specSegmentWalk]

lemma specSegmentWalk_cons (p : Nat) (d : DiffSeg) (rest : List DiffSeg) :
    specSegmentWalk p (d :: rest) =
      (match specWalkAt p (d :: rest) 0 with
       | some deco => [deco]
       | none => []) ++ specSegmentWalk (p + segAdvance d) rest := by
  have hfun : (specWalkAt p (d :: rest)) ∘ Nat.succ = specWalkAt (p + segAdvance d) rest := by
    funext i
    simpa using specWalkAt_succ p d rest i
  simp [specSegmentWalk, List.range_succ_eq_map, List.filterMap_cons, List.filterMap_map, hfun]
  cases specWalkAt p (d :: rest) 0 <;> simp

theorem buildDecos_eq_specSegmentWalk (startPos : Nat) (segs : List DiffSeg) :
    buildDecos startPos segs = specSegmentWalk startPos segs := by
  induction segs generalizing startPos with
  | nil => simp [buildDecos, specSegmentWalk_nil]
  | cons d rest ih =>
    rw [specSegmentWalk_cons]
    cases hop : d.op <;>
      simp [buildDecos, hop, specWalkAt, segAdvance, advanceLen, ih]

lemma string_append_data (a b : String) : (a ++ b).data = a.data ++ b.data := rfl

lemma beforeChars_append (l1 l2 : List DiffSeg) :
    beforeChars (l1 ++ l2) = beforeChars l1 ++ beforeChars l2 := by
  induction l1 with
  | nil => rfl
  | cons d rest ih => simp [beforeChars, ih]

lemma afterChars_append (l1 l2 : List DiffSeg) :
    afterChars (l1 ++ l2) = afterChars l1 ++ afterChars l2 := by
  induction l1 with
  | nil => rfl
  | cons d rest ih => simp [afterChars, ih]

lemma beforeChars_cleanupMerge (l : List DiffSeg) :
    beforeChars (diff_cleanupMerge l) = beforeChars l := by
  induction l with
  | nil => rfl
  | cons d rest ih =>
    simp only [diff_cleanupMerge]
    cases hm : diff_cleanupMerge rest with
    | nil =>
      rw [hm] at ih
      by_cases ht : d.text = "" <;>
        cases hop : d.op <;>
          simp [beforeChars, ht, hop, ← ih]
    | cons e es =>
      rw [hm] at ih
      by_cases ht : d.text = ""
      · cases hop : d.op <;> simp [beforeChars, ht, hop, ← ih]
      · by_cases hop2 : d.op = e.op
        · cases hop : d.op <;>
            simp [beforeChars, ht, hop, hop2, ← hop2, ← ih, string_append_data, ht,
              if_neg, hop2.symm ▸ hop]
        · simp [beforeChars, ht, hop2, ← ih]

lemma afterChars_cleanupMerge (l : List DiffSeg) :
    afterChars (diff_cleanupMerge l) = afterChars l := by
  induction l with
  | nil => rfl
  | cons d rest ih =>
    simp only [diff_cleanupMerge]
    cases hm : diff_cleanupMerge rest with
    | nil =>
      rw [hm] at ih
      by_cases ht : d.text = "" <;>
        cases hop : d.op <;>
          simp [afterChars, ht, hop, ← ih]
    | cons e es =>
      rw [hm] at ih
      by_cases ht : d.text = ""
      · cases hop : d.op <;> simp [afterChars, ht, hop, ← ih]
      · by_cases hop2 : d.op = e.op
        · cases hop : d.op <;>
            simp [afterChars, ht, hop, hop2, ← hop2, ← ih, string_append_data,
              hop2.symm ▸ hop]
        · simp [afterChars, ht, hop2, ← ih]

lemma string_mk_data_eq (l : List Char) : (String.mk l).data = l := rfl

lemma diff_compute_before (t1 t2 : List Char) :
    beforeChars (diff_compute t1 t2) = t1 := by
  by_cases h1 : t1.isEmpty
  · simp_all [diff_compute, beforeChars, List.isEmpty_iff]
  · by_cases h2 : t2.isEmpty <;>
      simp_all [diff_compute, beforeChars, string_mk_data_eq]

lemma diff_compute_after (t1 t2 : List Char) :
    afterChars (diff_compute t1 t2) = t2 := by
  by_cases h1 : t1.isEmpty
  · simp_all [diff_compute, afterChars, List.isEmpty_iff, string_mk_data_eq]
  · by_cases h2 : t2.isEmpty <;>
      simp_all [diff_compute, afterChars, List.isEmpty_iff, string_mk_data_eq]

lemma commonPrefixLen_take (a b : List Char) :
    a.take (commonPrefixLen a b) = b.take (commonPrefixLen a b) := by
  induction a generalizing b with
  | nil => simp [commonPrefixLen_nil_left]
  | cons x xs ih =>
    cases b with
    | nil => simp [commonPrefixLen_nil_right]
    | cons y ys =>
      by_cases hxy : x = y
      · simp [commonPrefixLen, hxy, ih ys]
      · simp [commonPrefixLen, hxy]

lemma drop_sub_eq_reverse_take (l : List Char) (s : Nat) :
    l.drop (l.length - s) = (l.reverse.take s).reverse := by
  have h := List.reverse_take (l := l.reverse) (n := s)
  simpa using h.symm

lemma common_suffix_drop_eq (a b : List Char) :
    a.drop (a.length - commonSuffixLen a b) =
      b.drop (b.length - commonSuffixLen a b) := by
  rw [drop_sub_eq_reverse_take, drop_sub_eq_reverse_take, commonSuffixLen,
    commonPrefixLen_take a.reverse b.reverse]

lemma take_len_drop (l : List Char) (p : Nat) :
    List.take (l.length - p) (List.drop p l) = List.drop p l := by
  have h := List.take_length (List.drop p l)
  rwa [List.length_drop] at h

lemma string_length_data (t : String) : t.length = t.data.length := rfl

set_option maxRecDepth 4096 in
theorem diff_main_coverage (a b : String) :
    beforeChars (diff_main a b) = a.data ∧ afterChars (diff_main a b) = b.data := by
  by_cases heq : a = b
  · subst heq
    by_cases h0 : a = "" <;>
      simp_all [diff_main, beforeChars, afterChars]
  · simp only [diff_main, if_neg heq]
    generalize hP : commonPrefixLen a.toList b.toList = p
    generalize hS : commonSuffixLen (a.toList.drop p) (b.toList.drop p) = s
    have htake : List.take p a.data = List.take p b.data := by
      have h := commonPrefixLen_take a.toList b.toList
      rw [hP] at h
      simpa [String.toList] using h
    have hdrop : List.drop (p + (a.data.length - p - s)) a.data =
        List.drop (p + (b.data.length - p - s)) b.data := by
      have h := common_suffix_drop_eq (a.toList.drop p) (b.toList.drop p)
      rw [hS] at h
      simpa [String.toList, List.drop_drop, List.length_drop, Nat.sub_sub] using h
    constructor
    · rw [beforeChars_cleanupMerge]
      by_cases hp : p = 0 <;> by_cases hs : s = 0
      · simp [hp, hs, beforeChars_append, beforeChars, diff_compute_before,
          string_mk_data_eq, List.take_append_drop, String.toList]
      · simp [hp, hs, beforeChars_append, beforeChars, diff_compute_before,
          string_mk_data_eq, List.take_append_drop, String.toList]
      · simp only [hp, hs, if_neg, if_pos, beforeChars_append, beforeChars,
          diff_compute_before, string_mk_data_eq, List.take_append_drop,
          String.toList, if_false, ite_false, ite_true]
        simp [beforeChars, beforeChars_append, diff_compute_before,
          string_mk_data_eq, String.toList]
        rw [string_length_data, take_len_drop, List.take_append_drop]
      · simp [hp, hs, beforeChars_append, beforeChars, diff_compute_before,
          string_mk_data_eq, List.take_append_drop, String.toList]
    · rw [afterChars_cleanupMerge]
      by_cases hp : p = 0 <;> by_cases hs : s = 0
      · simp [hp, hs, afterChars_append, afterChars, diff_compute_after,
          string_mk_data_eq, List.take_append_drop, String.toList, htake]
      · subst hp
        simp only [Nat.zero_add, Nat.sub_zero] at hdrop
        simp [hs, afterChars_append, afterChars, diff_compute_after,
          string_mk_data_eq, List.take_append_drop, String.toList, htake]
        rw [string_length_data a, string_length_data b, hdrop,
          List.take_append_drop]
      · simp [hp, hs, afterChars_append, afterChars, diff_compute_after,
          string_mk_data_eq, List.take_append_drop, String.toList, htake]
        rw [string_length_data b, take_len_drop, List.take_append_drop]
      · simp [hp, hs, afterChars_append, afterChars, diff_compute_after,
          string_mk_data_eq, List.take_append_drop, String.toList, htake]
        rw [string_length_data a, string_length_data b, hdrop,
          List.drop_take_append_drop, List.take_append_drop]

/-- Sanity link: the total rendering function is the instance of the
try/catch embedding whose diff computation never fails. -/
lemma generateDiffView_eq_generateDiffViewE (sel : Option SelectionInfo)
    (resp : Option AIResponse) :
    generateDiffView sel resp =
      generateDiffViewE
        (fun t1 t2 => Except.ok (diff_cleanupSemantic (diff_main t1 t2)))
        sel resp := rfl

/-!
Claim theorems.
-/

/-- C3: for every present selection s and present response r, accepting the
suggestion produces exactly one buffer mutation descriptor, replacing
[s.from, s.to) with exactly r.airesponse; dispatchAIChanges never consults
the diff, so the descriptor is independent of diff content. -/
theorem commit_atomicity (s : SelectionInfo) (r : AIResponse) :
    dispatchAIChanges (some s) (some r) = [⟨s.fromPos, s.toPos, r.airesponse⟩] ∧
    (dispatchAIChanges (some s) (some r)).length = 1 := ⟨rfl, rfl⟩

/-- C10: when the accept effect fires with the selection state absent but a
response present, dispatchAIChanges substitutes 0 for both range endpoints
and dispatches the single mutation replacing [0, 0) with the response
text. -/
theorem accept_without_selection_inserts_at_zero (r : AIResponse) :
    dispatchAIChanges none (some r) = [⟨0, 0, r.airesponse⟩] := rfl

/-- C4: for every present selection and response, generateDiffView's
annotations are exactly those described by the spec's left-to-right walk
from the selection's from offset: equal segments advance the cursor
emitting nothing, insert segments emit a zero-width added widget at the
cursor without advancing, delete segments emit a removed widget spanning
[cursor, cursor+len) and advance by len (specSegmentWalk is that walk in
closed form). -/
theorem diff_walk_matches_spec (s : SelectionInfo) (r : AIResponse) :
    generateDiffView (some s) (some r) =
      specSegmentWalk s.fromPos
        (diff_cleanupSemantic (diff_main s.text r.airesponse)) :=
  buildDecos_eq_specSegmentWalk s.fromPos _

/-- C6: the diff rendering function is deterministic — invoked twice on
identical inputs it yields identical decoration sets; the embedding is a
pure function of the selection and response alone (no randomness, time or
locale input exists). -/
theorem renderDiff_deterministic (s1 s2 : Option SelectionInfo)
    (r1 r2 : Option AIResponse) (hs : s1 = s2) (hr : r1 = r2) :
    generateDiffView s1 r1 = generateDiffView s2 r2 := by
  subst hs
  subst hr
  rfl

/-- Witness for renderDiff_deterministic at a concrete input. -/
theorem renderDiff_deterministic_witness :
    generateDiffView (some ⟨0, 5, "hello"⟩) (some ⟨"world", "p"⟩) =
      generateDiffView (some ⟨0, 5, "hello"⟩) (some ⟨"world", "p"⟩) :=
  renderDiff_deterministic _ _ _ _ rfl rfl

/-- C7: if the diff computation raises an internal error, generateDiffView
(embedded with its try/catch explicit as generateDiffViewE) returns the
empty decoration set; being a total function it propagates no exception to
its caller. -/
theorem renderDiff_catches_errors
    (dmp : String → String → Except String (List DiffSeg))
    (sel : Option SelectionInfo) (resp : Option AIResponse) (e : String)
    (h : dmp ((sel.map SelectionInfo.text).getD "")
        ((resp.map AIResponse.airesponse).getD "") = Except.error e) :
    generateDiffViewE dmp sel resp = [] := by
  simp [generateDiffViewE, h]

/-- Witness for renderDiff_catches_errors with an always-failing diff. -/
theorem renderDiff_catches_errors_witness :
    generateDiffViewE (fun _ _ => Except.error "diff failed") none none = [] :=
  renderDiff_catches_errors _ none none "diff failed" rfl

/-- C5: for every selection and response whose texts coincide, the rendered
decoration set is empty — the diff is the single pure-equal segment (or
empty for empty texts), and equal segments emit nothing. -/
theorem roundtrip_identity (s : SelectionInfo) (r : AIResponse)
    (h : r.airesponse = s.text) :
    generateDiffView (some s) (some r) = [] := by
  by_cases h0 : s.text = "" <;>
    simp [generateDiffView, diff_main, diff_cleanupSemantic, diff_cleanupMerge,
      h, h0, buildDecos]

/-- Witness for roundtrip_identity at a concrete input. -/
theorem roundtrip_identity_witness :
    generateDiffView (some ⟨2, 7, "hello"⟩) (some ⟨"hello", "p"⟩) = [] :=
  roundtrip_identity ⟨2, 7, "hello"⟩ ⟨"hello", "p"⟩ rfl

/-- C1 counterexample: with the selection absent and a non-empty response
present, generateDiffView returns a decoration set containing one "added"
widget at position 0 — not the empty set the claim requires. -/
theorem renderDiff_missing_selection_counterexample :
    generateDiffView none (some ⟨"Hello", "p"⟩) =
      [⟨DecoKind.added, "Hello", 0, 0⟩] ∧
    generateDiffView none (some ⟨"Hello", "p"⟩) ≠ ([] : List Deco) := by
  constructor
  · rfl
  · decide

/-- C1 (amended): generateDiffView coerces an absent selection or response
to the empty string and diffs anyway, so the result is empty when both
inputs are absent, but a null selection with a non-empty response yields
one added widget at offset 0, and a null response with a non-empty
selection yields one removed widget over the selection's range. -/
theorem renderDiff_missing_state_amended (r : AIResponse) (s : SelectionInfo)
    (hr : r.airesponse ≠ "") (hs : s.text ≠ "") :
    generateDiffView none none = [] ∧
    generateDiffView none (some r) = [⟨DecoKind.added, r.airesponse, 0, 0⟩] ∧
    generateDiffView (some s) none =
      [⟨DecoKind.removed, s.text, s.fromPos, s.fromPos + s.text.length⟩] := by
  refine ⟨rfl, ?_, ?_⟩
  · simp [generateDiffView, diff_cleanupSemantic, diff_main_empty_left _ hr,
      diff_cleanupMerge, hr, buildDecos]
  · simp [generateDiffView, diff_cleanupSemantic, diff_main_empty_right _ hs,
      diff_cleanupMerge, hs, buildDecos]

/-- Witness for renderDiff_missing_state_amended at concrete inputs. -/
theorem renderDiff_missing_state_amended_witness :
    generateDiffView none none = [] ∧
    generateDiffView none (some ⟨"Hello", "p"⟩) =
      [⟨DecoKind.added, "Hello", 0, 0⟩] ∧
    generateDiffView (some ⟨3, 8, "world"⟩) none =
      [⟨DecoKind.removed, "world", 3, 3 + "world".length⟩] :=
  renderDiff_missing_state_amended ⟨"Hello", "p"⟩ ⟨3, 8, "world"⟩
    (by decide) (by decide)

/-- C8: a transaction carrying a dismissTooltipEffect and no
setSelectionInfoEffect or setGeneratedResponseEffect clears all three
fields: the selection and response states become null and the diff
decoration set becomes empty. -/
theorem dismiss_clears_state (st : StoreState) (effects : List Eff)
    (hd : effects.any isDismissTooltip = true)
    (hs : effects.all (fun e => !isSetSelectionInfo e) = true)
    (hr : effects.all (fun e => !isSetGeneratedResponse e) = true) :
    applyTransaction st effects = ⟨none, none, []⟩ := by
  have hfind : effects.find? isSetSelectionInfo = none := by
    rw [List.find?_eq_none]
    intro x hx
    have := List.all_eq_true.mp hs x hx
    simpa using this
  have hanyR : effects.any isSetGeneratedResponse = false := by
    rw [Bool.eq_false_iff]
    intro hcontra
    obtain ⟨x, hx, hpx⟩ := List.any_eq_true.mp hcontra
    have := List.all_eq_true.mp hr x hx
    simp [hpx] at this
  simp [applyTransaction, currentSelectionUpdate, generatedResponseUpdate,
    diffDecorationUpdate, hfind, hanyR, hd]

/-- Witness for dismiss_clears_state: a concrete dismiss transaction. -/
theorem dismiss_clears_state_witness :
    applyTransaction
        ⟨some ⟨0, 3, "abc"⟩, some ⟨"xyz", "p"⟩, [⟨DecoKind.added, "xyz", 0, 0⟩]⟩
        [Eff.dismissTooltip] = ⟨none, none, []⟩ :=
  dismiss_clears_state _ _ (by decide) (by decide) (by decide)

/-- C9 counterexample: a transaction carrying two set-selection effects
resolves to the FIRST effect's value (the source uses Array.find), not the
last one as the claim states; likewise for set-response effects. -/
theorem last_write_wins_counterexample :
    currentSelectionUpdate none
        [Eff.setSelectionInfo (some ⟨0, 1, "a"⟩),
          Eff.setSelectionInfo (some ⟨2, 3, "b"⟩)] = some ⟨0, 1, "a"⟩ ∧
    currentSelectionUpdate none
        [Eff.setSelectionInfo (some ⟨0, 1, "a"⟩),
          Eff.setSelectionInfo (some ⟨2, 3, "b"⟩)] ≠ some ⟨2, 3, "b"⟩ ∧
    generatedResponseUpdate none
        [Eff.setGeneratedResponse (some ⟨"a", "p"⟩),
          Eff.setGeneratedResponse (some ⟨"b", "q"⟩)] = some ⟨"a", "p"⟩ ∧
    generatedResponseUpdate none
        [Eff.setGeneratedResponse (some ⟨"a", "p"⟩),
          Eff.setGeneratedResponse (some ⟨"b", "q"⟩)] ≠ some ⟨"b", "q"⟩ := by
  refine ⟨rfl, by decide, rfl, by decide⟩

/-- C9 (amended): state-store transitions are first-write-wins within a
transaction: the resulting selection state equals the value carried by the
first set-selection effect, and the response state the value of the first
set-response effect, with no merging of updates. -/
theorem first_write_wins_amended (selVal : Option SelectionInfo)
    (respVal : Option AIResponse) (effects : List Eff)
    (v : Option SelectionInfo) (w : Option AIResponse)
    (hs : effects.find? isSetSelectionInfo = some (Eff.setSelectionInfo v))
    (hr : effects.find? isSetGeneratedResponse =
      some (Eff.setGeneratedResponse w)) :
    currentSelectionUpdate selVal effects = v ∧
    generatedResponseUpdate respVal effects = w := by
  constructor
  · simp [currentSelectionUpdate, hs]
  · have hmem := List.mem_of_find?_eq_some hr
    have hp := List.find?_some hr
    have hany : effects.any isSetGeneratedResponse = true :=
      List.any_eq_true.mpr ⟨_, hmem, hp⟩
    simp [generatedResponseUpdate, hany, hr]

/-- Witness for first_write_wins_amended: a transaction with two
set-selection effects and one set-response effect resolves to the first of
each kind. -/
theorem first_write_wins_amended_witness :
    currentSelectionUpdate none
        [Eff.setSelectionInfo (some ⟨0, 1, "a"⟩),
          Eff.setGeneratedResponse (some ⟨"r", "p"⟩),
          Eff.setSelectionInfo (some ⟨2, 3, "b"⟩)] = some ⟨0, 1, "a"⟩ ∧
    generatedResponseUpdate none
        [Eff.setSelectionInfo (some ⟨0, 1, "a"⟩),
          Eff.setGeneratedResponse (some ⟨"r", "p"⟩),
          Eff.setSelectionInfo (some ⟨2, 3, "b"⟩)] = some ⟨"r", "p"⟩ :=
  first_write_wins_amended none none _ _ _ (by decide) (by decide)

/-- C2 counterexample: when the chat model invocation rejects (markdown
view active), handleEditorUpdate dispatches a setGeneratedResponseEffect
carrying the failure placeholder text, so the GeneratedResponse state does
NOT remain absent: applying the dispatched effects populates it. -/
theorem apiFailure_populates_response_counterexample :
    (handleEditorUpdate true (InvokeOutcome.rejected "network error") true
        "p").dispatchedEffects =
      [Eff.setGeneratedResponse
        (some ⟨"⚠️ Failed to generate a response. Please try again later.",
          "p"⟩)] ∧
    generatedResponseUpdate none
        (handleEditorUpdate true (InvokeOutcome.rejected "network error") true
          "p").dispatchedEffects =
      some ⟨"⚠️ Failed to generate a response. Please try again later.", "p"⟩ := by
  constructor <;> rfl

/-- C2 (amended): a failing API call raises a user-visible error Notice,
but callApi resolves with a non-empty placeholder error string and
handleEditorUpdate dispatches it in a setGeneratedResponseEffect (when a
markdown view is active), populating GeneratedResponse with the
placeholder rather than leaving it absent; the unavailable-client case
behaves the same with its own placeholder. -/
theorem apiFailure_amended (m req : String) (outcome : InvokeOutcome) :
    (callApi true (InvokeOutcome.rejected m)).returned =
        "⚠️ Failed to generate a response. Please try again later." ∧
    (callApi true (InvokeOutcome.rejected m)).notices =
        ["❌ Error calling the chat model: " ++ m] ∧
    (handleEditorUpdate true (InvokeOutcome.rejected m) true
        req).dispatchedEffects =
      [Eff.setGeneratedResponse
        (some ⟨"⚠️ Failed to generate a response. Please try again later.",
          req⟩)] ∧
    (callApi false outcome).returned = "⚠️ Chat client is not available." ∧
    (handleEditorUpdate false outcome true req).dispatchedEffects =
      [Eff.setGeneratedResponse
        (some ⟨"⚠️ Chat client is not available.", req⟩)] := by
  refine ⟨rfl, rfl, rfl, ?_, ?_⟩ <;> cases outcome <;> rfl

end InlineAI
